import Mathlib

/-!
Verification of the syncteams SDK client library: a shallow embedding of the
transport layer (`src/http.ts`), the workflow orchestration layer
(`src/client.ts`) and the error model (`src/errors.ts`), with theorems about
retry, backoff, polling, header merging and validation behaviour.

Machine integers in the source are JavaScript numbers; all quantities that the
claims touch (delays, attempt counts, HTTP statuses, elapsed milliseconds) are
non-negative integers in every execution the claims quantify over, so they are
modelled as `Nat`.
-/

/-! ## String utilities (JavaScript `String.prototype` operations) -/

/-- Sublist containment on character lists: `subList pat l` is true when `pat`
occurs contiguously inside `l`.  Models JavaScript `String.prototype.includes`. -/
def subList (pat : List Char) : List Char → Bool
  | [] => pat.isEmpty
  | c :: rest => pat.isPrefixOf (c :: rest) || subList pat rest

/-- JavaScript `haystack.includes(needle)`. -/
def strIncludes (haystack needle : String) : Bool :=
  subList needle.toList haystack.toList

/-- JavaScript `String.prototype.toUpperCase` on the ASCII strings the source
manipulates. -/
def upperString (s : String) : String :=
  String.mk (s.data.map Char.toUpper)

/-- JavaScript `String.prototype.toLowerCase` on the ASCII strings the source
manipulates. -/
def lowerString (s : String) : String :=
  String.mk (s.data.map Char.toLower)

/-- JavaScript `String.prototype.trim`: strip leading and trailing
whitespace. -/
def trimString (s : String) : String :=
  String.mk
    (((s.data.dropWhile Char.isWhitespace).reverse.dropWhile
      Char.isWhitespace).reverse)

/-- Case-insensitive equality on header names, as used by the WHATWG `Headers`
class (byte-lowercased comparison). -/
def ciEq (a b : String) : Bool :=
  lowerString a == lowerString b

/-! ## Data model (`src/types.ts`) -/

/-- `WorkflowStatus` from `src/types.ts`. -/
inductive WorkflowStatus where
  | QUEUED
  | PENDING
  | RUNNING
  | WAITING
  | CANCELED
  | FAILED
  | COMPLETED
deriving DecidableEq, Repr

/-- `ApprovalDecision` from `src/types.ts`. -/
inductive ApprovalDecision where
  | APPROVE
  | REJECT
deriving DecidableEq, Repr

/-- One entry of `TaskEventLog` (`src/types.ts`).  The `eventData` payload is
typed `ExecutionEvent` in the source; the spec places domain payload shapes out
of scope, so it is carried as an opaque string. -/
structure TaskEventLog where
  eventType : String
  eventData : String
  createdAt : String
deriving DecidableEq, Repr

/-- `TaskStatusResponse` from `src/types.ts`: the record returned by the
status endpoint and threaded through the polling loop. -/
structure TaskStatusResponse where
  taskId : String
  status : WorkflowStatus
  eventLogs : Option (List TaskEventLog) := none
deriving DecidableEq, Repr

/-- `WorkflowClientRetryConfig` after `normalizeRetryConfig` filled every
field (`Required<WorkflowClientRetryConfig>` in `src/http.ts`). -/
structure RetryConfig where
  maxAttempts : Nat
  initialDelayMs : Nat
  backoffFactor : Nat
  maxDelayMs : Nat
  retryOnStatuses : List Nat
deriving DecidableEq, Repr

/-- `range(start, endInclusive)` from `src/http.ts`. -/
def statusRange (start endInclusive : Nat) : List Nat :=
  List.range' start (endInclusive + 1 - start)

/-- The default retry policy built by `normalizeRetryConfig` when neither the
client nor the call supplies one: `maxAttempts 3`, `initialDelayMs 1000`,
`backoffFactor 2`, `maxDelayMs 30000`,
`retryOnStatuses [408, 425, 429] ++ [500..599]`. -/
def defaultRetryConfig : RetryConfig where
  maxAttempts := 3
  initialDelayMs := 1000
  backoffFactor := 2
  maxDelayMs := 30000
  retryOnStatuses := [408, 425, 429] ++ statusRange 500 599

/-! ## Error model (`src/errors.ts`) -/

/-- A thrown JavaScript value as the transport layer can observe it: a
`DOMException` (carrying its `name`), a plain `Error` (carrying its
`message`), or a thrown non-`Error` value. -/
inductive JsError where
  | domException (name : String) (message : String)
  | jsError (message : String)
  | nonError
deriving DecidableEq, Repr

/-- The parsed response body attached to a `WorkflowAPIError` (`data` field).
JSON deserialization is an external collaborator in the spec, so a parsed JSON
document is carried as its raw text. `timeoutData` is the
`{taskId, lastStatus}` object built by the poll-timeout path in
`src/client.ts`. -/
inductive ErrorData where
  | nullData
  | textData (s : String)
  | jsonData (raw : String)
  | parseFailData (message : String)
  | timeoutData (taskId : String) (lastStatus : WorkflowStatus)
deriving DecidableEq, Repr

/-- The request descriptor `{method, url, body}` recorded on every
`WorkflowAPIError` (`src/http.ts`, `requestDescriptor`).  The body snapshot is
the JSON-safe `prepareDebugBody` output, carried as opaque text. -/
structure RequestDescriptor where
  method : String
  url : String
  body : Option String := none
deriving DecidableEq, Repr

/-- `WorkflowAPIError` from `src/errors.ts`: status `0` for non-HTTP failures,
a reason code in `statusText`, normalized headers, parsed body and the
originating request descriptor. -/
structure WorkflowAPIError where
  message : String
  status : Nat
  statusText : String
  headers : List (String × String)
  data : ErrorData
  request : RequestDescriptor
  cause : Option JsError := none
deriving DecidableEq, Repr

/-- The local validation error thrown by `assertString`, `ensureSerializable`
and the REJECT-message check in `src/client.ts`: a plain `Error`, a type
distinct from `WorkflowAPIError`. -/
structure LocalError where
  message : String
deriving DecidableEq, Repr

/-! ## HTTP responses (fetch `Response` interface boundary) -/

/-- The slice of a fetch `Response` the transport layer reads: status,
status text, headers, body text, and whether `response.json()` would succeed
(JSON parsing itself is out of scope per the spec). -/
structure HttpResponse where
  status : Nat
  statusText : String
  headers : List (String × String)
  bodyText : String
  jsonOk : Bool := true
deriving DecidableEq, Repr

/-- The values of every header-list entry whose name matches `k`
case-insensitively, in list order. -/
def hVals (h : List (String × String)) (k : String) : List String :=
  (h.filter (fun p => ciEq p.fst k)).map (fun p => p.snd)

/-- WHATWG `Headers.get`: combine the values of every entry whose name
matches case-insensitively with a comma and a space; `none` when absent. -/
def hGet (h : List (String × String)) (k : String) : Option String :=
  match hVals h k with
  | [] => none
  | vs => some (String.intercalate (", ") vs)

/-- `response.ok`: status in the inclusive range 200..299. -/
def respOk (r : HttpResponse) : Bool :=
  200 ≤ r.status && r.status ≤ 299

/-- The content-type header of a response, defaulting to the empty string
(`response.headers.get('content-type') ?? ''`). -/
def contentTypeOf (r : HttpResponse) : String :=
  (hGet r.headers ("content-type")).getD ("")

/-- Whether the response declares a JSON body
(`contentType.includes('application/json')`). -/
def isJsonResponse (r : HttpResponse) : Bool :=
  strIncludes (contentTypeOf r) ("application/json")

/-! ## Transport layer (`src/http.ts`) -/

/-- `SuccessValue`: what `parseSuccessResponse` returns on a 2xx response:
`null` for 204, raw text for non-JSON bodies, parsed JSON (carried as raw
text) otherwise. -/
inductive SuccessValue where
  | nullBody
  | textValue (s : String)
  | jsonValue (s : String)
deriving DecidableEq, Repr

/-- `parseSuccessResponse` from `src/http.ts`: 204 yields null; a non-JSON
content type yields the body text; a JSON content type yields the parsed JSON
or throws a `WorkflowAPIError` carrying the response status and headers when
parsing fails. -/
def parseSuccessResponse (r : HttpResponse) (reqd : RequestDescriptor) :
    Except WorkflowAPIError SuccessValue :=
  if r.status = 204 then .ok .nullBody
  else if isJsonResponse r then
    if r.jsonOk then .ok (.jsonValue r.bodyText)
    else .error
      { message := ("Failed to parse JSON response")
        status := r.status
        statusText := r.statusText
        headers := r.headers
        data := .nullData
        request := reqd
        cause := some .nonError }
  else .ok (.textValue r.bodyText)

/-- `parseErrorBody` from `src/http.ts`: parsed JSON for JSON content types
(or a `{parseError}` object when parsing throws), the body text when
non-empty, `null` otherwise. -/
def parseErrorBody (r : HttpResponse) : ErrorData :=
  if isJsonResponse r then
    if r.jsonOk then .jsonData r.bodyText
    else .parseFailData r.bodyText
  else if r.bodyText.length = 0 then .nullData
  else .textData r.bodyText

/-- `buildErrorMessage` from `src/http.ts`.  The branch that extracts a
`message`/`error` field from a parsed JSON object body is outside the
JSON-opaque model, so a JSON body falls through to the base
`status statusText` message. -/
def buildErrorMessage (r : HttpResponse) (data : ErrorData) : String :=
  match data with
  | .textData s =>
    if s.length = 0 then toString r.status ++ (" ") ++ r.statusText
    else toString r.status ++ (" ") ++ r.statusText ++ (": ") ++ s
  | _ => toString r.status ++ (" ") ++ r.statusText

/-- `toWorkflowError` from `src/http.ts`: the `WorkflowAPIError` built from a
non-2xx response, carrying that response status, headers and parsed body. -/
def toWorkflowError (r : HttpResponse) (reqd : RequestDescriptor) :
    WorkflowAPIError where
  message := buildErrorMessage r (parseErrorBody r)
  status := r.status
  statusText := r.statusText
  headers := r.headers
  data := parseErrorBody r
  request := reqd
  cause := none

/-- `shouldRetry` from `src/http.ts`. -/
def shouldRetry (status : Nat) (retry : RetryConfig) : Bool :=
  retry.retryOnStatuses.contains status

/-- The delay computed by `delayWithBackoff` in `src/http.ts`:
`min(initialDelayMs * backoffFactor ^ max(0, attempt - 1), maxDelayMs)`. -/
def delayWithBackoff (attempt : Nat) (retry : RetryConfig) : Nat :=
  min (retry.initialDelayMs * retry.backoffFactor ^ (attempt - 1)) retry.maxDelayMs

/-- The retryable message fragments listed in `isRetryableNetworkError`
(`src/http.ts`), exactly as written there. -/
def retryableMessages : List String :=
  [("ECONNRESET"), ("ENOTFOUND"), ("EAI_AGAIN"), ("ETIMEDOUT"), ("socket hang up")]

/-- `isRetryableNetworkError` from `src/http.ts`: a `DOMException` named
`AbortError` is retryable; otherwise an `Error` is retryable when its
upper-cased message contains one of the fragments; non-`Error` values are
not.  (A `DOMException` with a different name checks its message like any
other `Error`, since `DOMException` inherits from `Error`.) -/
def isRetryableNetworkError : JsError → Bool
  | .domException name message =>
    if name == ("AbortError") then true
    else retryableMessages.any (fun msg => strIncludes (upperString message) msg)
  | .jsError message =>
    retryableMessages.any (fun msg => strIncludes (upperString message) msg)
  | .nonError => false

/-- The message of the plain `Error` that `performRequest` throws when the
per-attempt timeout fired (`src/http.ts` line 223). -/
def timeoutAbortMessage (timeoutMs : Nat) (method url : String) : String :=
  ("Request aborted after ") ++ toString timeoutMs ++ ("ms (") ++ method
    ++ (" ") ++ url ++ (")")

/-- What one attempt observes from the environment: the fetch resolved with a
response; the fetch rejected with a thrown value (no abort involved); the
per-attempt timeout fired and aborted the call before the caller signal; or
the caller cancellation signal aborted the call.  In the last two cases the
platform fetch rejects with a `DOMException` named `AbortError`. -/
inductive AttemptEnv where
  | resolved (r : HttpResponse)
  | rejected (e : JsError)
  | timedOut
  | externallyAborted
deriving DecidableEq, Repr

/-- `HttpClient.performRequest` from `src/http.ts`: runs the fetch under a
fresh `AbortController` wired to both the timeout timer and the caller
signal.  When the fetch rejects with the controller aborted, the raw error is
rethrown if the caller signal was the cause, and otherwise replaced by a plain
`Error` with the `timeoutAbortMessage`; a rejection without abort is rethrown
unchanged. -/
def performRequest (timeoutMs : Nat) (method url : String) :
    AttemptEnv → Except JsError HttpResponse
  | .resolved r => .ok r
  | .rejected e => .error e
  | .timedOut => .error (.jsError (timeoutAbortMessage timeoutMs method url))
  | .externallyAborted =>
    .error (.domException ("AbortError") ("This operation was aborted"))

/-- The `WorkflowAPIError` that the catch block of `HttpClient.request` wraps a
non-retried thrown value into: status 0, reason `NETWORK_ERROR`, the thrown
value as `cause`. -/
def networkWrapError (e : JsError) (reqd : RequestDescriptor) :
    WorkflowAPIError where
  message :=
    match e with
    | .domException _ message => message
    | .jsError message => message
    | .nonError => ("Request failed without a message")
  status := 0
  statusText := ("NETWORK_ERROR")
  headers := []
  data := .nullData
  request := reqd
  cause := some e

/-- The defensive `RETRY_EXHAUSTED` error after the attempt loop of
`HttpClient.request` (`src/http.ts` line 137): reachable only if the loop
exits without returning or throwing. -/
def retryExhaustedError (reqd : RequestDescriptor) : WorkflowAPIError where
  message := ("Exceeded maximum retry attempts")
  status := 0
  statusText := ("RETRY_EXHAUSTED")
  headers := []
  data := .nullData
  request := reqd
  cause := none

/-- The observable outcome of `HttpClient.request`: the final result, the
number of attempts issued, and the backoff delays slept between attempts in
order. -/
structure RequestOutcome where
  result : Except WorkflowAPIError SuccessValue
  attempts : Nat
  delays : List Nat
deriving Repr

/-- The attempt loop of `HttpClient.request` (`src/http.ts` lines 81..134),
with the per-attempt environment supplied as `env` (indexed by the 1-based
attempt number) and the remaining loop iterations as `fuel` (the loop runs
`attempt = 1..maxAttempts`, so the top-level call passes
`fuel = maxAttempts`).  A 2xx response returns the parsed body (a parse
failure throws a `WorkflowAPIError`, rethrown by the catch block); a non-2xx
response retries on a retryable status while attempts remain, else throws the
response error; a thrown value retries when classified retryable while
attempts remain, else is wrapped with status 0. -/
def requestAttempts (env : Nat → AttemptEnv) (retry : RetryConfig)
    (timeoutMs : Nat) (reqd : RequestDescriptor) :
    Nat → Nat → RequestOutcome
  | _, 0 => ⟨.error (retryExhaustedError reqd), 0, []⟩
  | attempt, fuel + 1 =>
    match performRequest timeoutMs reqd.method reqd.url (env attempt) with
    | .ok response =>
      if respOk response then
        ⟨parseSuccessResponse response reqd, 1, []⟩
      else if attempt < retry.maxAttempts && shouldRetry response.status retry then
        let rest := requestAttempts env retry timeoutMs reqd (attempt + 1) fuel
        ⟨rest.result, rest.attempts + 1, delayWithBackoff attempt retry :: rest.delays⟩
      else
        ⟨.error (toWorkflowError response reqd), 1, []⟩
    | .error e =>
      if attempt < retry.maxAttempts && isRetryableNetworkError e
          && decide (1 < retry.maxAttempts) then
        let rest := requestAttempts env retry timeoutMs reqd (attempt + 1) fuel
        ⟨rest.result, rest.attempts + 1, delayWithBackoff attempt retry :: rest.delays⟩
      else
        ⟨.error (networkWrapError e reqd), 1, []⟩

/-- `HttpClient.request` for one logical call: runs the attempt loop from
attempt 1 with `maxAttempts` loop iterations available. -/
def httpRequest (env : Nat → AttemptEnv) (retry : RetryConfig)
    (timeoutMs : Nat) (reqd : RequestDescriptor) : RequestOutcome :=
  requestAttempts env retry timeoutMs reqd 1 retry.maxAttempts

/-! ## Header construction and merging (`src/http.ts`) -/

/-- `buildUserAgent` from `src/http.ts`: the base SDK identifier, optionally
suffixed.  A missing or empty suffix (falsy in the source) yields the base. -/
def buildUserAgent (userAgentSuffix : Option String) : String :=
  match userAgentSuffix with
  | none => ("syncteams-sdk/0.1.0")
  | some sfx =>
    if sfx.length = 0 then ("syncteams-sdk/0.1.0")
    else trimString (("syncteams-sdk/0.1.0 ") ++ sfx)

/-- JavaScript object property assignment `record[key] = value` on a string
record: replaces the value of an existing key compared case-sensitively,
otherwise inserts the key at the end.  Insertion order is preserved, as for
the own enumerable string keys of a JS object. -/
def recSet (r : List (String × String)) (k v : String) :
    List (String × String) :=
  if r.any (fun p => p.fst == k) then
    r.map (fun p => if p.fst == k then (p.fst, v) else p)
  else r ++ [(k, v)]

/-- `buildDefaultHeaders` from `src/http.ts`: the record
`{Accept, User-Agent, x-api-key}` with the client-wide override entries
assigned over it one by one (JS object assignment, case-sensitive keys). -/
def buildDefaultHeaders (apiKey : String) (overrides : List (String × String))
    (userAgentSuffix : Option String) : List (String × String) :=
  overrides.foldl (fun acc p => recSet acc p.fst p.snd)
    [(("Accept"), ("application/json")),
     (("User-Agent"), buildUserAgent userAgentSuffix),
     (("x-api-key"), apiKey)]

/-- WHATWG `Headers.append`: adds the entry to the header list; duplicate
names (case-insensitively) are allowed in the list and combined by `hGet`. -/
def hAppend (h : List (String × String)) (k v : String) :
    List (String × String) :=
  h ++ [(k, v)]

/-- `new Headers(record)`: appends each record entry in order. -/
def headersOfRecord (r : List (String × String)) : List (String × String) :=
  r.foldl (fun acc p => hAppend acc p.fst p.snd) []

/-- Drop every entry whose name matches `k` case-insensitively. -/
def hRemoveAll (h : List (String × String)) (k : String) :
    List (String × String) :=
  h.filter (fun p => !(ciEq p.fst k))

/-- WHATWG `Headers.set`: replace the value of the first entry whose name
matches case-insensitively and drop the remaining matches; append when no
entry matches. -/
def hSet : List (String × String) → String → String → List (String × String)
  | [], k, v => [(k, v)]
  | p :: rest, k, v =>
    if ciEq p.fst k then (p.fst, v) :: hRemoveAll rest k
    else p :: hSet rest k v

/-- `HttpClient.mergeHeaders` from `src/http.ts`: build a `Headers` from the
default-header record, `set` each per-call header over it, then set
`Content-Type: application/json` when the body is a plain structured value
(non-null object that is not `ArrayBuffer`/`Blob`/`FormData`, summarized by
`bodyIsJsonCandidate`) and no content type is present. -/
def mergeHeaders (defaults custom : List (String × String))
    (bodyIsJsonCandidate : Bool) : List (String × String) :=
  let base := headersOfRecord defaults
  let merged := custom.foldl (fun acc p => hSet acc p.fst p.snd) base
  if bodyIsJsonCandidate && (hGet merged ("content-type")).isNone then
    hSet merged ("Content-Type") ("application/json")
  else merged

/-! ## Workflow orchestration layer (`src/client.ts`) -/

/-- `DEFAULT_POLL_INTERVAL_MS` from `src/types.ts`. -/
def DEFAULT_POLL_INTERVAL_MS : Nat := 2000

/-- `DEFAULT_MAX_WAIT_TIME_MS` from `src/types.ts` (ten minutes). -/
def DEFAULT_MAX_WAIT_TIME_MS : Nat := 600000

/-- `TERMINAL_STATUSES` from `src/client.ts`. -/
def TERMINAL_STATUSES : List WorkflowStatus :=
  [.COMPLETED, .FAILED, .CANCELED]

/-- JavaScript falsiness of an optional string (`!message`): true for a
missing value and for the empty string. -/
def isFalsyOptString : Option String → Bool
  | none => true
  | some s => s.length = 0

/-- The body `{taskId, type, message}` that `continueTask` posts to
`/api/v1/continue`. -/
structure ContinuePayload where
  taskId : String
  type : ApprovalDecision
  message : Option String
deriving DecidableEq, Repr

/-- `WorkflowClient.continueTask` up to its transport call: `assertString` on
the task id, then the REJECT-message check; a failure is a `LocalError`
thrown before any network request, and `.ok` carries the payload the single
transport POST would send. -/
def continueTask (taskId : String) (decision : ApprovalDecision)
    (message : Option String) : Except LocalError ContinuePayload :=
  if (trimString taskId).length = 0 then
    .error ⟨("taskId must be a non-empty string")⟩
  else if decision == .REJECT && isFalsyOptString message then
    .error ⟨("message is required when decision is REJECT")⟩
  else .ok ⟨taskId, decision, message⟩

/-- The options of `waitForCompletion` after destructuring with defaults
(`src/client.ts` lines 109..116).  The cancellation signal and update
callback are modelled in `WaitEnv` and the poll trace. -/
structure WaitOptions where
  pollIntervalMs : Nat := DEFAULT_POLL_INTERVAL_MS
  maxWaitTimeMs : Nat := DEFAULT_MAX_WAIT_TIME_MS
  terminalStatuses : List WorkflowStatus := TERMINAL_STATUSES
  exitOnWaiting : Bool := false

/-- The environment one `waitForCompletion` invocation observes:
`statuses n` is the response of the n-th status fetch (0-based, each fetch a
fully retried transport call), `elapsedAfter n` the value of
`Date.now() - startedAt` read in iteration n, `abortedBefore n` whether the
caller signal is set at the top of iteration n, and `abortDuringSleep n`
whether the signal fires during the n-th poll-interval sleep. -/
structure WaitEnv where
  statuses : Nat → TaskStatusResponse
  elapsedAfter : Nat → Nat
  abortedBefore : Nat → Bool
  abortDuringSleep : Nat → Bool

/-- A failure of the wait loop: the caller cancellation (a `DOMException`
named `AbortError` in the source, a kind distinct from `WorkflowAPIError`) or
the synthesized poll-timeout `WorkflowAPIError`. -/
inductive WaitError where
  | aborted
  | pollTimeout (e : WorkflowAPIError)
deriving DecidableEq, Repr

/-- The `WorkflowAPIError` thrown by the poll-timeout path of
`waitForCompletion` (`src/client.ts` lines 143..156). -/
def pollTimeoutError (taskId : String) (maxWaitTimeMs : Nat)
    (lastStatus : WorkflowStatus) : WorkflowAPIError where
  message := ("Timed out after ") ++ toString maxWaitTimeMs
    ++ ("ms waiting for task ") ++ taskId
  status := 0
  statusText := ("POLL_TIMEOUT")
  headers := []
  data := .timeoutData taskId lastStatus
  request := { method := ("GET"), url := ("/api/v1/status?taskId=") ++ taskId }
  cause := none

/-- The stopping condition of the poll loop: the status is in the terminal
set, or it is `WAITING` and `exitOnWaiting` is set. -/
def stoppingStatus (opts : WaitOptions) (s : WorkflowStatus) : Bool :=
  opts.terminalStatuses.contains s || (s == .WAITING && opts.exitOnWaiting)

/-- The observable outcome of one `waitForCompletion` invocation: the result,
the number of status fetches issued, and the records passed to the `onUpdate`
callback in invocation order. -/
structure WaitOutcome where
  result : Except WaitError TaskStatusResponse
  polls : Nat
  updates : List TaskStatusResponse
deriving Repr

/-- The polling loop of `waitForCompletion` (`src/client.ts` lines 122..160):
check the cancellation signal, fetch the status, invoke `onUpdate` when the
status differs from the last observed one, return on a stopping status, throw
the poll-timeout error when the elapsed time reached `maxWaitTimeMs`, sleep
the (cancellable) poll interval and repeat.  `lastStatus` is the previously
observed status, `n` the 0-based iteration index, and `fuel` bounds the
remaining iterations of the source `while (true)`; `none` means the loop is
still running when `fuel` iterations have elapsed. -/
def waitLoop (env : WaitEnv) (opts : WaitOptions) (taskId : String) :
    Option WorkflowStatus → Nat → Nat → Option WaitOutcome
  | _, _, 0 => none
  | lastStatus, n, fuel + 1 =>
    if env.abortedBefore n then some ⟨.error .aborted, 0, []⟩
    else
      let r := env.statuses n
      let changed := !(some r.status == lastStatus)
      let nextLast := if changed then some r.status else lastStatus
      let upds := if changed then [r] else []
      if stoppingStatus opts r.status then some ⟨.ok r, 1, upds⟩
      else if opts.maxWaitTimeMs ≤ env.elapsedAfter n then
        some ⟨.error (.pollTimeout
          (pollTimeoutError taskId opts.maxWaitTimeMs r.status)), 1, upds⟩
      else if env.abortDuringSleep n then some ⟨.error .aborted, 1, upds⟩
      else
        match waitLoop env opts taskId nextLast (n + 1) fuel with
        | none => none
        | some w => some ⟨w.result, w.polls + 1, upds ++ w.updates⟩

/-- `WorkflowClient.waitForCompletion`: `assertString` on the task id (a
`LocalError` before any network call), then the polling loop starting with no
previously observed status. -/
def waitForCompletion (env : WaitEnv) (taskId : String) (opts : WaitOptions)
    (fuel : Nat) : Except LocalError (Option WaitOutcome) :=
  if (trimString taskId).length = 0 then
    .error ⟨("taskId must be a non-empty string")⟩
  else .ok (waitLoop env opts taskId none 0 fuel)

/-- The outcome of the resume loop in `executeAndWait`: a returned status
record, a propagated wait failure, or the defensive
`Unexpected: executeAndWait exited without returning` error after the loop
(`src/client.ts` line 198). -/
inductive ExecOutcome where
  | returned (r : TaskStatusResponse)
  | failed (e : WaitError)
  | defensiveFailure
deriving Repr

/-- The resume loop of `WorkflowClient.executeAndWait` with a pause-handler
supplied (`src/client.ts` lines 178..198).  `wfc n` is the outcome of the
n-th `waitForCompletion` call (issued with `exitOnWaiting` forced true, its
failure propagating), `onWaiting n r` the boolean the handler returns for the
n-th pause, and `continuePolling` the loop variable (true on entry).  `fuel`
bounds the iterations of the source `while (continuePolling)` loop; `none`
means the loop is still running after `fuel` iterations.  Falling out of the
loop yields `defensiveFailure`. -/
def executeAndWaitLoop (wfc : Nat → Except WaitError TaskStatusResponse)
    (onWaiting : Nat → TaskStatusResponse → Bool) :
    Bool → Nat → Nat → Option ExecOutcome
  | _, _, 0 => none
  | continuePolling, n, fuel + 1 =>
    if continuePolling then
      match wfc n with
      | .error e => some (.failed e)
      | .ok current =>
        if !(current.status == .WAITING) then some (.returned current)
        else
          let next := onWaiting n current
          if next then executeAndWaitLoop wfc onWaiting next (n + 1) fuel
          else some (.returned current)
    else some .defensiveFailure

/-- `WorkflowClient.executeAndWait` after a successful trigger, with a
pause-handler supplied: the resume loop entered with
`continuePolling = true`. -/
def executeAndWait (wfc : Nat → Except WaitError TaskStatusResponse)
    (onWaiting : Nat → TaskStatusResponse → Bool) (fuel : Nat) :
    Option ExecOutcome :=
  executeAndWaitLoop wfc onWaiting true 0 fuel

/-- Whether an `executeAndWait` run ended on the defensive failure path. -/
def isDefensive : Option ExecOutcome → Bool
  | some .defensiveFailure => true
  | _ => false

/-! ## Observation helpers for the polling loop -/

/-- The statuses returned by `cnt` successive status fetches starting at poll
index `n`. -/
def observedStatuses (env : WaitEnv) : Nat → Nat → List WorkflowStatus
  | _, 0 => []
  | n, cnt + 1 => (env.statuses n).status :: observedStatuses env (n + 1) cnt

/-- Collapse consecutive repeats, given the previously observed value: the
list of values at which a change is observed. -/
def destutterFrom (prev : Option WorkflowStatus) :
    List WorkflowStatus → List WorkflowStatus
  | [] => []
  | s :: rest =>
    if some s == prev then destutterFrom prev rest
    else s :: destutterFrom (some s) rest

/-! ## Concrete transport scenarios -/

/-- A successful JSON 200 response, used to show that a further attempt would
have succeeded. -/
def okJsonResponse : HttpResponse where
  status := 200
  statusText := ("OK")
  headers := [(("content-type"), ("application/json"))]
  bodyText := ("{}")

/-- A plain-text 500 response. -/
def serverErrorResponse : HttpResponse where
  status := 500
  statusText := ("Internal Server Error")
  headers := [(("content-type"), ("text/plain"))]
  bodyText := ("boom")

/-- The descriptor of a GET against the default production origin. -/
def apiV1Descriptor : RequestDescriptor where
  method := ("GET")
  url := ("https://api.syncteams.studio/api/v1")

/-- An execution whose first attempt hits the per-attempt timeout (the caller
signal never fires) and whose later attempts would succeed. -/
def timeoutFirstEnv : Nat → AttemptEnv :=
  fun n => if n = 1 then .timedOut else .resolved okJsonResponse

/-- An execution in which the caller cancellation signal has fired: every
attempt observes the external abort. -/
def callerAbortedEnv : Nat → AttemptEnv :=
  fun _ => .externallyAborted

/-- An execution in which the server answers 500 on every attempt. -/
def always500Env : Nat → AttemptEnv :=
  fun _ => .resolved serverErrorResponse

/-- The value of the last entry of `l` whose key matches `k`
case-insensitively, if any: the value that wins after `Headers.set` is folded
over `l`. -/
def lastCiVal : List (String × String) → String → Option String
  | [], _ => none
  | p :: rest, k =>
    match lastCiVal rest k with
    | some v => some v
    | none => if ciEq p.fst k then some p.snd else none

/-! ## Concrete polling scenarios -/

/-- A status record for the fixed task id used in concrete scenarios. -/
def statusRec (s : WorkflowStatus) : TaskStatusResponse where
  taskId := ("task-1")
  status := s

/-- A quiet polling environment replaying the given status sequence (and then
COMPLETED forever): no cancellation, no elapsed time. -/
def statusSeqEnv (l : List WorkflowStatus) : WaitEnv where
  statuses := fun n => statusRec (l.getD n .COMPLETED)
  elapsedAfter := fun _ => 0
  abortedBefore := fun _ => false
  abortDuringSleep := fun _ => false

/-- A polling environment stuck in RUNNING whose elapsed clock has already
reached the default `maxWaitTimeMs`. -/
def stalledEnv : WaitEnv where
  statuses := fun _ => statusRec .RUNNING
  elapsedAfter := fun _ => DEFAULT_MAX_WAIT_TIME_MS
  abortedBefore := fun _ => false
  abortDuringSleep := fun _ => false

/-! ## Claim theorems: transport layer -/

/-- Claim C1: the claim states that a per-attempt timeout (with the caller
signal unset) is classified as a transient network-class failure and, with
attempts remaining under the active retry policy, is retried after a backoff
sleep.  The code does the opposite: `performRequest` replaces the timeout
abort with a plain `Error` whose message matches none of the retryable
fragments of `isRetryableNetworkError`, so the very first timeout is not
retried — the call fails at once with a status-0 `NETWORK_ERROR` wrapper,
one attempt issued and no backoff slept, even though every later attempt
would have succeeded and two attempts remained under the default policy. -/
theorem timeout_failure_not_retried :
    isRetryableNetworkError
      (.jsError (timeoutAbortMessage 30000 ("GET") apiV1Descriptor.url)) = false
    ∧ httpRequest timeoutFirstEnv defaultRetryConfig 30000 apiV1Descriptor =
      { result := .error (networkWrapError
          (.jsError (timeoutAbortMessage 30000 ("GET") apiV1Descriptor.url))
          apiV1Descriptor)
        attempts := 1
        delays := [] } :=
  ⟨by rfl, by rfl⟩

/-- Claim C2: the claim states that a caller-cancelled request propagates
unchanged — never retried, never wrapped into a status-0 error.  The code
does the opposite: `performRequest` rethrows the raw `AbortError`
`DOMException`, which `isRetryableNetworkError` classifies as retryable, so
under the default policy the already-cancelled call is attempted three times
with backoff sleeps of 1000ms and 2000ms between them, and the cancellation
is finally wrapped into a status-0 `NETWORK_ERROR` `WorkflowAPIError` with
the `AbortError` as its cause. -/
theorem caller_cancellation_retried_and_wrapped :
    httpRequest callerAbortedEnv defaultRetryConfig 30000 apiV1Descriptor =
      { result := .error (networkWrapError
          (.domException ("AbortError") ("This operation was aborted"))
          apiV1Descriptor)
        attempts := 3
        delays := [1000, 2000] }
    ∧ isRetryableNetworkError
        (.domException ("AbortError") ("This operation was aborted")) = true :=
  ⟨by rfl, by rfl⟩

/-- Claim C3: a transport call answered with HTTP 500 on every attempt, under
a retry policy with `maxAttempts = 3` whose retryable statuses include 500,
performs exactly 3 attempts, sleeps
`min(initialDelayMs * backoffFactor ^ (n-1), maxDelayMs)` before re-attempt
`n` (1-indexed), and then fails with the `WorkflowAPIError` built from the
last (third) response, whose status, headers and parsed body are those of
that response. -/
theorem retry_bound_http500
    (p : RetryConfig) (env : Nat → AttemptEnv) (r1 r2 r3 : HttpResponse)
    (tms : Nat) (reqd : RequestDescriptor)
    (hp : p.maxAttempts = 3) (h500 : 500 ∈ p.retryOnStatuses)
    (h1 : env 1 = .resolved r1) (h2 : env 2 = .resolved r2)
    (h3 : env 3 = .resolved r3)
    (hs1 : r1.status = 500) (hs2 : r2.status = 500) (hs3 : r3.status = 500) :
    httpRequest env p tms reqd =
      { result := .error (toWorkflowError r3 reqd)
        attempts := 3
        delays :=
          [min (p.initialDelayMs * p.backoffFactor ^ 0) p.maxDelayMs,
           min (p.initialDelayMs * p.backoffFactor ^ 1) p.maxDelayMs] }
    ∧ (toWorkflowError r3 reqd).status = r3.status
    ∧ (toWorkflowError r3 reqd).headers = r3.headers
    ∧ (toWorkflowError r3 reqd).data = parseErrorBody r3 := by
  refine ⟨?_, rfl, rfl, rfl⟩
  simp [httpRequest, hp, requestAttempts, h1, h2, h3, performRequest, respOk,
    hs1, hs2, hs3, shouldRetry, h500, delayWithBackoff]

/-- Witness for C3: the always-500 environment under the default retry policy
performs 3 attempts with delays 1000ms and 2000ms and fails with the error
built from the last response. -/
theorem retry_bound_http500_witness :
    httpRequest always500Env defaultRetryConfig 30000 apiV1Descriptor =
      { result := .error (toWorkflowError serverErrorResponse apiV1Descriptor)
        attempts := 3
        delays := [1000, 2000] }
    ∧ (toWorkflowError serverErrorResponse apiV1Descriptor).status = 500 := by
  have h := retry_bound_http500 defaultRetryConfig always500Env
    serverErrorResponse serverErrorResponse serverErrorResponse 30000
    apiV1Descriptor rfl (by decide) rfl rfl rfl rfl rfl rfl
  exact ⟨by simpa using h.1, rfl⟩

/-! ## Helper lemmas on header operations -/

/-- `ciEq` holds exactly when the lowercased names agree. -/
theorem ciEq_iff (a b : String) :
    ciEq a b = true ↔ lowerString a = lowerString b := by
  simp [ciEq]

/-- A name case-insensitively equal to `b` matches the same names as `b`. -/
theorem ciEq_congr_left (a b : String) (h : ciEq a b = true) (c : String) :
    ciEq a c = ciEq b c := by
  rw [ciEq_iff] at h
  simp [ciEq, h]

/-- Matching against case-insensitively equal names is the same. -/
theorem ciEq_congr_right (b c : String) (h : ciEq b c = true) (a : String) :
    ciEq a b = ciEq a c := by
  rw [ciEq_iff] at h
  simp [ciEq, h]

/-- After removing every entry matching `k`, nothing matches a name
case-insensitively equal to `k`. -/
theorem filter_hRemoveAll_same (k k2 : String) (h : ciEq k k2 = true)
    (rest : List (String × String)) :
    (hRemoveAll rest k).filter (fun p => ciEq p.fst k2) = [] := by
  rw [hRemoveAll, List.filter_filter]
  have hfun : ∀ q : String × String,
      (ciEq q.fst k2 && !(ciEq q.fst k)) = false := by
    intro q
    rw [ciEq_congr_right k k2 h q.fst]
    cases ciEq q.fst k2 <;> rfl
  simp only [hfun, List.filter_false]

/-- Removing the entries matching `k` leaves the matches of any
case-insensitively different name untouched. -/
theorem filter_hRemoveAll_other (k k2 : String) (h : ciEq k k2 = false)
    (rest : List (String × String)) :
    (hRemoveAll rest k).filter (fun p => ciEq p.fst k2) =
      rest.filter (fun p => ciEq p.fst k2) := by
  rw [hRemoveAll, List.filter_filter]
  have hfun : ∀ q : String × String,
      (ciEq q.fst k2 && !(ciEq q.fst k)) = ciEq q.fst k2 := by
    intro q
    cases hq : ciEq q.fst k
    · simp
    · have hq2 : ciEq q.fst k2 = false := by
        rw [ciEq_congr_left q.fst k hq k2]
        exact h
      simp [hq2]
  simp only [hfun]

/-- After `Headers.set`, the values of a matching name collapse to exactly
the set value, and other names are unchanged. -/
theorem hVals_hSet (k v k2 : String) (h : List (String × String)) :
    hVals (hSet h k v) k2 =
      if ciEq k k2 then [v] else hVals h k2 := by
  induction h with
  | nil =>
    cases hc : ciEq k k2 <;> simp [hSet, hVals, List.filter_cons, hc]
  | cons p rest ih =>
    cases hpk : ciEq p.fst k
    · have hstep : hSet (p :: rest) k v = p :: hSet rest k v := by
        simp [hSet, hpk]
      rw [hstep]
      cases hkk2 : ciEq k k2
      · simp only [hkk2, Bool.false_eq_true, if_false] at ih
        cases hpk2 : ciEq p.fst k2 <;>
          simp [hVals, List.filter_cons, hpk2, hkk2] <;>
          simpa [hVals] using ih
      · have hpk2 : ciEq p.fst k2 = false := by
          rw [← ciEq_congr_right k k2 hkk2 p.fst]
          exact hpk
        simp only [hkk2, if_true] at ih
        simp [hVals, List.filter_cons, hpk2, hkk2]
        simpa [hVals] using ih
    · have hstep : hSet (p :: rest) k v = (p.fst, v) :: hRemoveAll rest k := by
        simp [hSet, hpk]
      rw [hstep]
      cases hkk2 : ciEq k k2
      · have hpk2 : ciEq p.fst k2 = false := by
          rw [ciEq_congr_left p.fst k hpk k2]
          exact hkk2
        simp [hVals, List.filter_cons, hpk2,
          filter_hRemoveAll_other k k2 hkk2 rest, hkk2]
      · have hpk2 : ciEq p.fst k2 = true := by
          rw [ciEq_congr_left p.fst k hpk k2]
          exact hkk2
        simp [hVals, List.filter_cons, hpk2,
          filter_hRemoveAll_same k k2 hkk2 rest, hkk2]

/-- `Headers.get` after `Headers.set`: the set value wins for its own name
(case-insensitively) and nothing else changes. -/
theorem hGet_hSet (h : List (String × String)) (k v k2 : String) :
    hGet (hSet h k v) k2 = if ciEq k k2 then some v else hGet h k2 := by
  rw [hGet, hVals_hSet k v k2 h]
  cases hc : ciEq k k2
  · simp [hGet]
  · simp [String.intercalate, String.intercalate.go]

/-- Folding `Headers.set` over a list of entries: the last entry whose key
matches wins; a name never set keeps its previous lookup. -/
theorem hGet_foldl_hSet (custom : List (String × String)) :
    ∀ (h0 : List (String × String)) (k : String),
    hGet (custom.foldl (fun acc p => hSet acc p.fst p.snd) h0) k =
      match lastCiVal custom k with
      | some v => some v
      | none => hGet h0 k := by
  induction custom with
  | nil => intro h0 k; rfl
  | cons p rest ih =>
    intro h0 k
    rw [List.foldl_cons, ih (hSet h0 p.fst p.snd) k]
    rw [show lastCiVal (p :: rest) k =
      (match lastCiVal rest k with
       | some v => some v
       | none => if ciEq p.fst k then some p.snd else none) from rfl]
    cases hrest : lastCiVal rest k
    · cases hpk : ciEq p.fst k <;>
        simp [hGet_hSet, hpk]
    · rfl

/-! ## Helper lemmas on the polling and resume loops -/

/-- Through any run of the polling loop, the records handed to `onUpdate` are
exactly the polled statuses with consecutive repeats collapsed, in
observation order. -/
theorem waitLoop_updates (env : WaitEnv) (opts : WaitOptions) (t : String) :
    ∀ (fuel : Nat) (l0 : Option WorkflowStatus) (n : Nat) (w : WaitOutcome),
      waitLoop env opts t l0 n fuel = some w →
      w.updates.map (fun r => r.status) =
        destutterFrom l0 (observedStatuses env n w.polls) := by
  intro fuel
  induction fuel with
  | zero =>
    intro l0 n w h
    simp [waitLoop] at h
  | succ fuel ih =>
    intro l0 n w h
    rw [waitLoop] at h
    by_cases hab : env.abortedBefore n = true
    · rw [if_pos hab] at h
      cases h
      simp [observedStatuses, destutterFrom]
    · rw [if_neg hab] at h
      simp only at h
      by_cases hstop : stoppingStatus opts (env.statuses n).status = true
      · rw [if_pos hstop] at h
        cases h
        by_cases hch : (some (env.statuses n).status == l0) = true
        · simp [hch, observedStatuses, destutterFrom]
        · simp [hch, observedStatuses, destutterFrom]
      · rw [if_neg hstop] at h
        by_cases helap : opts.maxWaitTimeMs ≤ env.elapsedAfter n
        · rw [if_pos helap] at h
          cases h
          by_cases hch : (some (env.statuses n).status == l0) = true
          · simp [hch, observedStatuses, destutterFrom]
          · simp [hch, observedStatuses, destutterFrom]
        · rw [if_neg helap] at h
          by_cases hslp : env.abortDuringSleep n = true
          · rw [if_pos hslp] at h
            cases h
            by_cases hch : (some (env.statuses n).status == l0) = true
            · simp [hch, observedStatuses, destutterFrom]
            · simp [hch, observedStatuses, destutterFrom]
          · rw [if_neg hslp] at h
            cases hrec : waitLoop env opts t
                (if !(some (env.statuses n).status == l0) then
                  some (env.statuses n).status else l0) (n + 1) fuel with
            | none => rw [hrec] at h; cases h
            | some w2 =>
              rw [hrec] at h
              cases h
              have ihw := ih _ _ _ hrec
              by_cases hch : (some (env.statuses n).status == l0) = true
              · simp only [hch] at ihw
                simp [observedStatuses, destutterFrom, hch, ihw]
              · have hch2 : (some (env.statuses n).status == l0) = false := by
                  simpa using hch
                simp only [hch2] at ihw
                simp [observedStatuses, destutterFrom, hch2, ihw]

/-- Every poll-timeout error the polling loop can produce was built at an
iteration whose polled status was not a stopping status, and it carries the
task id, the configured deadline and that status. -/
theorem waitLoop_timeout_origin (env : WaitEnv) (opts : WaitOptions)
    (t : String) :
    ∀ (fuel : Nat) (l0 : Option WorkflowStatus) (n : Nat) (w : WaitOutcome)
      (e : WorkflowAPIError),
      waitLoop env opts t l0 n fuel = some w →
      w.result = .error (.pollTimeout e) →
      ∃ s, e = pollTimeoutError t opts.maxWaitTimeMs s
        ∧ stoppingStatus opts s = false := by
  intro fuel
  induction fuel with
  | zero =>
    intro l0 n w e h _
    simp [waitLoop] at h
  | succ fuel ih =>
    intro l0 n w e h hres
    rw [waitLoop] at h
    by_cases hab : env.abortedBefore n = true
    · rw [if_pos hab] at h
      cases h
      simp at hres
    · rw [if_neg hab] at h
      simp only at h
      by_cases hstop : stoppingStatus opts (env.statuses n).status = true
      · rw [if_pos hstop] at h
        cases h
        simp at hres
      · rw [if_neg hstop] at h
        by_cases helap : opts.maxWaitTimeMs ≤ env.elapsedAfter n
        · rw [if_pos helap] at h
          cases h
          refine ⟨(env.statuses n).status, ?_, ?_⟩
          · simpa using hres.symm
          · simpa using hstop
        · rw [if_neg helap] at h
          by_cases hslp : env.abortDuringSleep n = true
          · rw [if_pos hslp] at h
            cases h
            simp at hres
          · rw [if_neg hslp] at h
            cases hrec : waitLoop env opts t
                (if !(some (env.statuses n).status == l0) then
                  some (env.statuses n).status else l0) (n + 1) fuel with
            | none => rw [hrec] at h; cases h
            | some w2 =>
              rw [hrec] at h
              cases h
              exact ih _ _ _ _ hrec (by simpa using hres)

/-- No run of the resume loop that enters with `continuePolling = true` ever
reaches the defensive failure path after the loop. -/
theorem executeAndWaitLoop_no_defensive
    (wfc : Nat → Except WaitError TaskStatusResponse)
    (onWaiting : Nat → TaskStatusResponse → Bool) :
    ∀ (fuel n : Nat),
      isDefensive (executeAndWaitLoop wfc onWaiting true n fuel) = false := by
  intro fuel
  induction fuel with
  | zero => intro n; rfl
  | succ fuel ih =>
    intro n
    rw [executeAndWaitLoop]
    cases hw : wfc n with
    | error e => simp [hw, isDefensive]
    | ok current =>
      by_cases hc : (current.status == WorkflowStatus.WAITING) = true
      · by_cases hnext : onWaiting n current = true
        · simp only [hw, hc, hnext, Bool.not_true, Bool.false_eq_true,
            if_false, if_true]
          exact ih (n + 1)
        · simp [hw, hc, hnext, isDefensive]
      · simp [hw, hc, isDefensive]

/-! ## Claim theorems: orchestration layer -/

/-- Claim C4: a `waitForCompletion` run whose successive status fetches
return PENDING, RUNNING, COMPLETED under the default terminal statuses (and
whose caller neither cancels nor lets the ten-minute deadline lapse during
the first two iterations) issues exactly 3 status calls, invokes `onUpdate`
exactly 3 times with those records in order, and returns the COMPLETED
record. -/
theorem poll_convergence
    (env : WaitEnv) (opts : WaitOptions) (t : String)
    (r0 r1 r2 : TaskStatusResponse) (fuel : Nat)
    (ht : (trimString t).length ≠ 0)
    (hterm : opts.terminalStatuses = TERMINAL_STATUSES)
    (hwait : opts.exitOnWaiting = false)
    (h0 : env.statuses 0 = r0) (h1 : env.statuses 1 = r1)
    (h2 : env.statuses 2 = r2)
    (hs0 : r0.status = .PENDING) (hs1 : r1.status = .RUNNING)
    (hs2 : r2.status = .COMPLETED)
    (hab : ∀ n, env.abortedBefore n = false)
    (hsl : ∀ n, env.abortDuringSleep n = false)
    (he0 : env.elapsedAfter 0 < opts.maxWaitTimeMs)
    (he1 : env.elapsedAfter 1 < opts.maxWaitTimeMs) :
    waitForCompletion env t opts (fuel + 3) =
      .ok (some { result := .ok r2, polls := 3, updates := [r0, r1, r2] }) := by
  unfold waitForCompletion
  rw [if_neg ht]
  simp [waitLoop, hab, hsl, h0, h1, h2, hs0, hs1, hs2, stoppingStatus, hterm,
    hwait, TERMINAL_STATUSES, Nat.not_le.mpr he0, Nat.not_le.mpr he1]

/-- Witness for C4: the concrete PENDING, RUNNING, COMPLETED environment. -/
theorem poll_convergence_witness :
    waitForCompletion (statusSeqEnv [.PENDING, .RUNNING, .COMPLETED])
        ("task-1") {} 3 =
      .ok (some
        { result := .ok (statusRec .COMPLETED)
          polls := 3
          updates := [statusRec .PENDING, statusRec .RUNNING,
            statusRec .COMPLETED] }) :=
  poll_convergence (statusSeqEnv [.PENDING, .RUNNING, .COMPLETED]) {}
    ("task-1") (statusRec .PENDING) (statusRec .RUNNING)
    (statusRec .COMPLETED) 0 (by decide) rfl rfl rfl rfl rfl rfl rfl rfl
    (fun _ => rfl) (fun _ => rfl) (by decide) (by decide)

/-- Claim C5: within one `waitForCompletion` invocation, the `onUpdate`
callback receives exactly the polled statuses with consecutive repeats
collapsed, in observation order — a poll whose status equals the immediately
preceding observed status never fires the callback. -/
theorem onUpdate_per_distinct_status
    (env : WaitEnv) (opts : WaitOptions) (t : String) (fuel : Nat)
    (w : WaitOutcome)
    (ht : (trimString t).length ≠ 0)
    (hw : waitForCompletion env t opts fuel = .ok (some w)) :
    w.updates.map (fun r => r.status) =
      destutterFrom none (observedStatuses env 0 w.polls) := by
  rw [waitForCompletion, if_neg ht] at hw
  exact waitLoop_updates env opts t fuel none 0 w (Except.ok.inj hw)

/-- Witness for C5: the sequence PENDING, PENDING, RUNNING, COMPLETED fires
the callback three times, skipping the repeated PENDING. -/
theorem onUpdate_per_distinct_status_witness :
    [statusRec .PENDING, statusRec .RUNNING, statusRec .COMPLETED].map
        (fun r => r.status) =
      destutterFrom none
        (observedStatuses
          (statusSeqEnv [.PENDING, .PENDING, .RUNNING, .COMPLETED]) 0 4) :=
  onUpdate_per_distinct_status
    (statusSeqEnv [.PENDING, .PENDING, .RUNNING, .COMPLETED]) {} ("task-1") 4
    { result := .ok (statusRec .COMPLETED)
      polls := 4
      updates := [statusRec .PENDING, statusRec .RUNNING,
        statusRec .COMPLETED] }
    (by decide) (by rfl)

/-- Claim C6: an iteration of the polling loop that observes a non-stopping
status with the elapsed time at or past `maxWaitTimeMs` (and no cancellation)
ends the wait at once with the poll-timeout `WorkflowAPIError`: status 0,
reason `POLL_TIMEOUT`, carrying the task id and the last observed
(non-stopping) status. -/
theorem poll_timeout_shape
    (env : WaitEnv) (opts : WaitOptions) (t : String)
    (l0 : Option WorkflowStatus) (n fuel : Nat)
    (hab : env.abortedBefore n = false)
    (hstop : stoppingStatus opts (env.statuses n).status = false)
    (helap : opts.maxWaitTimeMs ≤ env.elapsedAfter n) :
    waitLoop env opts t l0 n (fuel + 1) =
      some { result := .error (.pollTimeout
               (pollTimeoutError t opts.maxWaitTimeMs (env.statuses n).status))
             polls := 1
             updates := if !(some (env.statuses n).status == l0)
               then [env.statuses n] else [] }
    ∧ (pollTimeoutError t opts.maxWaitTimeMs (env.statuses n).status).status
        = 0
    ∧ (pollTimeoutError t opts.maxWaitTimeMs
        (env.statuses n).status).statusText = ("POLL_TIMEOUT")
    ∧ (pollTimeoutError t opts.maxWaitTimeMs (env.statuses n).status).data
        = .timeoutData t (env.statuses n).status := by
  refine ⟨?_, rfl, rfl, rfl⟩
  rw [waitLoop]
  simp [hab, hstop, helap]

/-- Witness for C6: the stalled RUNNING environment whose clock already
reached the default deadline times out on the first poll. -/
theorem poll_timeout_shape_witness :
    waitLoop stalledEnv {} ("task-1") none 0 1 =
      some { result := .error (.pollTimeout
               (pollTimeoutError ("task-1") DEFAULT_MAX_WAIT_TIME_MS .RUNNING))
             polls := 1
             updates := [statusRec .RUNNING] }
    ∧ (pollTimeoutError ("task-1") DEFAULT_MAX_WAIT_TIME_MS .RUNNING).status
        = 0
    ∧ (pollTimeoutError ("task-1") DEFAULT_MAX_WAIT_TIME_MS
        .RUNNING).statusText = ("POLL_TIMEOUT")
    ∧ (pollTimeoutError ("task-1") DEFAULT_MAX_WAIT_TIME_MS .RUNNING).data
        = .timeoutData ("task-1") .RUNNING :=
  poll_timeout_shape stalledEnv {} ("task-1") none 0 0 rfl (by rfl) (by rfl)

/-- Claim C7: with a pause-handler supplied, every iteration of the
`executeAndWait` resume loop exits by returning a status record or
propagating a failure, for every input and every sequence of handler
results; the defensive failure after the loop is unreachable. -/
theorem executeAndWait_never_defensive
    (wfc : Nat → Except WaitError TaskStatusResponse)
    (onWaiting : Nat → TaskStatusResponse → Bool) (fuel : Nat) :
    isDefensive (executeAndWait wfc onWaiting fuel) = false :=
  executeAndWaitLoop_no_defensive wfc onWaiting fuel 0

/-- Claim C8 (amended): per-call headers always win case-insensitively — for
any name not touched by the automatic `Content-Type` defaulting, the header
sent is the last per-call entry for that name when one exists, and otherwise
the lookup over the built-in-plus-client-wide default record; that record is
merged case-SENSITIVELY, so a client-wide key that exactly matches a built-in
key replaces it, while a differing-case collision leaves both entries, whose
values `Headers.get` combines. -/
theorem headers_precedence
    (apiKey : String) (clientHeaders : List (String × String))
    (uaSuffix : Option String) (callHeaders : List (String × String))
    (bodyIsJsonCandidate : Bool) (k : String)
    (hk : bodyIsJsonCandidate = false ∨ ciEq ("content-type") k = false) :
    hGet (mergeHeaders (buildDefaultHeaders apiKey clientHeaders uaSuffix)
        callHeaders bodyIsJsonCandidate) k =
      (match lastCiVal callHeaders k with
       | some v => some v
       | none => hGet (headersOfRecord
           (buildDefaultHeaders apiKey clientHeaders uaSuffix)) k)
    ∧ ∀ v, hGet (headersOfRecord
        (buildDefaultHeaders apiKey [(("Accept"), v)] uaSuffix)) ("accept")
          = some v := by
  constructor
  · simp only [mergeHeaders]
    cases hk with
    | inl hb =>
      rw [hb]
      simp only [Bool.false_and, Bool.false_eq_true, if_false]
      exact hGet_foldl_hSet callHeaders _ k
    | inr hct =>
      by_cases hcond : (bodyIsJsonCandidate &&
          (hGet (callHeaders.foldl (fun acc p => hSet acc p.fst p.snd)
            (headersOfRecord (buildDefaultHeaders apiKey clientHeaders
              uaSuffix))) ("content-type")).isNone) = true
      · rw [if_pos hcond, hGet_hSet]
        have hctk : ciEq ("Content-Type") k = false := by
          rw [ciEq_congr_left ("Content-Type") ("content-type") (by rfl) k]
          exact hct
        rw [hctk]
        simp only [Bool.false_eq_true, if_false]
        exact hGet_foldl_hSet callHeaders _ k
      · rw [if_neg hcond]
        exact hGet_foldl_hSet callHeaders _ k
  · intro v
    rfl

/-- Counterexample for C8 as frozen: a client-wide `accept` entry collides
case-insensitively with the built-in `Accept` default but does NOT win — the
sent header combines both values, because `buildDefaultHeaders` merges the
record with case-sensitive keys and the `Headers` constructor appends both
entries. -/
theorem headers_case_collision_counterexample :
    hGet (mergeHeaders
        (buildDefaultHeaders ("sts_key") [(("accept"), ("text/plain"))] none)
        [] false) ("accept")
      = some ("application/json, text/plain")
    ∧ (hGet (mergeHeaders
        (buildDefaultHeaders ("sts_key") [(("accept"), ("text/plain"))] none)
        [] false) ("accept")
        == some ("text/plain")) = false :=
  ⟨by rfl, by rfl⟩

/-- Witness for C8: with two per-call entries for the same name in differing
case, the later one wins; a client-wide `Accept` override with the built-in
case replaces the default. -/
theorem headers_precedence_witness :
    hGet (mergeHeaders (buildDefaultHeaders ("sts_key") [] none)
        [(("X-Custom"), ("v2")), (("x-custom"), ("v3"))] false) ("X-CUSTOM")
      = some ("v3")
    ∧ hGet (headersOfRecord (buildDefaultHeaders ("sts_key")
        [(("Accept"), ("text/html"))] none)) ("accept")
      = some ("text/html") := by
  have h := headers_precedence ("sts_key") [] none
    [(("X-Custom"), ("v2")), (("x-custom"), ("v3"))] false ("X-CUSTOM")
    (Or.inl rfl)
  exact ⟨by simpa using h.1, h.2 ("text/html")⟩

/-- Claim C9: `continueTask` with decision REJECT and a missing or empty
message fails before any network call with a local validation error (`.error`
of the `LocalError` kind, a type distinct from `WorkflowAPIError`; the `.ok`
branch, which carries the payload of the transport POST, is never reached):
the task-id validation error when the task id is blank, and the
message-required error otherwise. -/
theorem reject_requires_message (taskId : String) (message : Option String)
    (hm : message = none ∨ message = some ("")) :
    continueTask taskId .REJECT message =
      .error (if (trimString taskId).length = 0
        then ⟨("taskId must be a non-empty string")⟩
        else ⟨("message is required when decision is REJECT")⟩) := by
  rw [continueTask]
  by_cases ht : (trimString taskId).length = 0
  · rw [if_pos ht, if_pos ht]
  · rw [if_neg ht, if_neg ht]
    have hf : isFalsyOptString message = true := by
      cases hm with
      | inl h => rw [h]; rfl
      | inr h => rw [h]; rfl
    simp [hf]

/-- Witness for C9: rejecting task-1 with no message fails with the
message-required local error. -/
theorem reject_requires_message_witness :
    continueTask ("task-1") .REJECT none =
      .error ⟨("message is required when decision is REJECT")⟩
    ∧ continueTask ("task-1") .REJECT (some ("")) =
      .error ⟨("message is required when decision is REJECT")⟩ := by
  have h1 := reject_requires_message ("task-1") none (Or.inl rfl)
  have h2 := reject_requires_message ("task-1") (some ("")) (Or.inr rfl)
  exact ⟨by simpa using h1, by simpa using h2⟩

/-- Claim C10: the polling loop always issues its status fetch before
evaluating the deadline — an iteration that observes a stopping status
returns that record regardless of the elapsed time; with `maxWaitTimeMs = 0`
the first iteration still issues exactly one poll; and any poll-timeout error
the loop produces carries a non-stopping last observed status. -/
theorem first_poll_and_stopping_priority :
    (∀ (env : WaitEnv) (opts : WaitOptions) (t : String)
        (l0 : Option WorkflowStatus) (n fuel : Nat),
      env.abortedBefore n = false →
      stoppingStatus opts (env.statuses n).status = true →
      waitLoop env opts t l0 n (fuel + 1) =
        some { result := .ok (env.statuses n)
               polls := 1
               updates := if !(some (env.statuses n).status == l0)
                 then [env.statuses n] else [] })
    ∧ (∀ (env : WaitEnv) (opts : WaitOptions) (t : String)
        (l0 : Option WorkflowStatus) (n fuel : Nat),
      opts.maxWaitTimeMs = 0 →
      env.abortedBefore n = false →
      ∃ res upds, waitLoop env opts t l0 n (fuel + 1) =
        some { result := res, polls := 1, updates := upds })
    ∧ (∀ (env : WaitEnv) (opts : WaitOptions) (t : String) (fuel : Nat)
        (w : WaitOutcome) (e : WorkflowAPIError),
      waitLoop env opts t none 0 fuel = some w →
      w.result = .error (.pollTimeout e) →
      ∃ s, e = pollTimeoutError t opts.maxWaitTimeMs s
        ∧ stoppingStatus opts s = false) := by
  refine ⟨?_, ?_, ?_⟩
  · intro env opts t l0 n fuel hab hstop
    rw [waitLoop]
    simp [hab, hstop]
  · intro env opts t l0 n fuel hmw hab
    rw [waitLoop]
    by_cases hstop : stoppingStatus opts (env.statuses n).status = true
    · refine ⟨.ok (env.statuses n),
        if !(some (env.statuses n).status == l0)
          then [env.statuses n] else [], ?_⟩
      simp [hab, hstop]
    · refine ⟨.error (.pollTimeout
        (pollTimeoutError t opts.maxWaitTimeMs (env.statuses n).status)),
        if !(some (env.statuses n).status == l0)
          then [env.statuses n] else [], ?_⟩
      simp [hab, hstop, hmw]
  · intro env opts t fuel w e hw hres
    exact waitLoop_timeout_origin env opts t fuel none 0 w e hw hres

/-- Witness for C10: a COMPLETED first poll returns despite a spent clock;
`maxWaitTimeMs = 0` still polls once; the stalled-environment timeout error
carries the non-stopping RUNNING status. -/
theorem first_poll_and_stopping_priority_witness :
    waitLoop (statusSeqEnv [.COMPLETED]) {} ("task-1") none 0 1 =
      some { result := .ok (statusRec .COMPLETED)
             polls := 1
             updates := [statusRec .COMPLETED] }
    ∧ (∃ res upds,
        waitLoop stalledEnv { maxWaitTimeMs := 0 } ("task-1") none 0 1 =
          some { result := res, polls := 1, updates := upds })
    ∧ (∃ s, pollTimeoutError ("task-1") DEFAULT_MAX_WAIT_TIME_MS .RUNNING =
        pollTimeoutError ("task-1") DEFAULT_MAX_WAIT_TIME_MS s
        ∧ stoppingStatus {} s = false) := by
  refine ⟨?_, ?_, ?_⟩
  · have h := first_poll_and_stopping_priority.1 (statusSeqEnv [.COMPLETED])
      {} ("task-1") none 0 0 rfl (by rfl)
    simpa using h
  · exact first_poll_and_stopping_priority.2.1 stalledEnv
      { maxWaitTimeMs := 0 } ("task-1") none 0 0 rfl rfl
  · exact first_poll_and_stopping_priority.2.2 stalledEnv {} ("task-1") 1
      { result := .error (.pollTimeout (pollTimeoutError ("task-1")
          DEFAULT_MAX_WAIT_TIME_MS .RUNNING))
        polls := 1
        updates := [statusRec .RUNNING] }
      (pollTimeoutError ("task-1") DEFAULT_MAX_WAIT_TIME_MS .RUNNING)
      (by rfl) (by rfl)
